import Mathlib

/-!
Verification of the github-projects-mcp integration layer.

The definitions below are a shallow embedding of the Python sources
`github_projects_mcp/core/client.py`, `github_projects_mcp/server.py` and
`github_projects_mcp/config.py`.  Pure computations (page-size clamping,
keyword scanning, value formatting, client-side filtering) are translated
directly; the network transport is abstracted as an attempt-indexed oracle,
and Python exceptions are modelled with `Except`.
-/

set_option autoImplicit false

namespace GithubProjectsMcp

/-! ## Python value model

A runtime Python value as it appears in the code paths of this repository:
strings, ints, floats (carried opaquely by their textual form, since the code
never computes with them), booleans, dicts, `None`, and lists. -/

inductive PyVal where
  | vstr (s : String)
  | vint (n : Int)
  | vbool (b : Bool)
  | vfloat (r : String)
  | vdict (entries : List (String × PyVal))
  | vnone
  | vlist (elems : List PyVal)

/-- Python `isinstance(v, str)`. -/
def isinstance_str : PyVal → Bool
  | .vstr _ => true
  | _ => false

/-- Python `isinstance(v, int)`.  A Python `bool` is a subclass of `int`,
so booleans satisfy this check. -/
def isinstance_int : PyVal → Bool
  | .vint _ => true
  | .vbool _ => true
  | _ => false

/-- Python `isinstance(v, (int, float))`; booleans are instances of `int`. -/
def isinstance_int_or_float : PyVal → Bool
  | .vint _ => true
  | .vbool _ => true
  | .vfloat _ => true
  | _ => false

/-- Python `isinstance(v, dict)`. -/
def isinstance_dict : PyVal → Bool
  | .vdict _ => true
  | _ => false

mutual

/-- Python `repr(v)`, to the extent the modelled code needs it (string
escaping inside `repr` is not modelled; no modelled code path depends on it). -/
def pyRepr : PyVal → String
  | .vstr s => "\x27" ++ s ++ "\x27"
  | .vint n => toString n
  | .vbool b => if b then "True" else "False"
  | .vfloat r => r
  | .vdict entries => "\x7b" ++ String.intercalate ", " (pyReprEntries entries) ++ "\x7d"
  | .vnone => "None"
  | .vlist elems => "[" ++ String.intercalate ", " (pyReprList elems) ++ "]"

/-- Maps `repr` over the elements of a Python list. -/
def pyReprList : List PyVal → List String
  | [] => []
  | v :: vs => pyRepr v :: pyReprList vs

/-- Maps `repr` over the entries of a Python dict. -/
def pyReprEntries : List (String × PyVal) → List String
  | [] => []
  | (k, v) :: es => ("\x27" ++ k ++ "\x27: " ++ pyRepr v) :: pyReprEntries es

end

/-- Python `str(v)`: identity on strings, `repr`-like otherwise. -/
def pyStr : PyVal → String
  | .vstr s => s
  | v => pyRepr v

/-- Python truthiness of a value.  Opaque floats are modelled as truthy; no
code path modelled here branches on the truthiness of a float. -/
def pyTruthy : PyVal → Bool
  | .vstr s => !s.isEmpty
  | .vint n => n != 0
  | .vbool b => b
  | .vfloat _ => true
  | .vdict entries => !entries.isEmpty
  | .vnone => false
  | .vlist elems => !elems.isEmpty

/-- Python `v == s` for a string literal `s` on the right: true exactly when
`v` is an equal string (no modelled value type cross-compares equal to a
string). -/
def pyEqStr (v : PyVal) (s : String) : Bool :=
  match v with
  | .vstr t => t == s
  | _ => false

/-- Python truthiness of an `Optional[str]` argument (`None` and the empty
string are falsy). -/
def pyTruthyOptStr : Option String → Bool
  | none => false
  | some s => !s.isEmpty

/-- Python truthiness of an `Optional[dict]` argument (`None` and the empty
dict are falsy). -/
def pyTruthyOptDict : Option (List (String × PyVal)) → Bool
  | none => false
  | some entries => !entries.isEmpty

/-! ## String helpers -/

/-- Python `s.lower()`: lowercase each character (this agrees with Python on
the ASCII range; every scanned keyword is ASCII). -/
def pyLower (s : String) : String :=
  String.mk (s.toList.map Char.toLower)

/-- Python substring containment `needle in hay`, over the characters of the
strings (the empty needle is contained in every string). -/
def strContains (hay needle : String) : Bool :=
  go needle.toList hay.toList
where
  /-- Does `needle` occur as a contiguous sublist of `hay`? -/
  go (needle : List Char) : List Char → Bool
    | [] => needle.isEmpty
    | c :: rest => needle.isPrefixOf (c :: rest) || go needle rest

/-! ## Retry layer (`client.py`, `_execute_with_retry`)

One transport attempt either returns a result or raises an exception.  The
exception carries its `str(e)` text and, when the exception object has a
truthy `response` attribute, the optional `status_code`
attribute. -/

/-- A Python exception as observed by `_execute_with_retry`: its text and,
when the exception exposes a truthy `response` attribute
(`hasattr(e, "response") and e.response`), the optional
`status_code`. -/
structure PyExn where
  text : String
  response : Option (Option Nat)
  deriving Repr, DecidableEq

/-- Outcome of a single `self.client.execute(...)` call. -/
inductive AttemptResult (α : Type) where
  | ok (result : α)
  | exn (e : PyExn)

/-- The classified errors raised by `_execute_with_retry`
(`models.RateLimitError` and `models.GitHubAPIError`). -/
inductive ApiError where
  | rateLimitError
  | gitHubAPIError (message : String) (statusCode : Option Nat)
  deriving Repr, DecidableEq

/-- What a call of `_execute_with_retry` did: how many transport attempts it
made, the sleep durations it performed in order, and the returned value or
raised classified error. -/
structure RetryOutcome (α : Type) where
  attempts : Nat
  sleeps : List Nat
  result : Except ApiError α

/-- The rate-limit heuristic `"rate limit" in str(e).lower()`. -/
def isRateLimit (e : PyExn) : Bool :=
  strContains (pyLower e.text) "rate limit"

/-- The non-rate-limit branch of `_execute_with_retry`: build a
`GitHubAPIError` from the message and, when the exception exposes a truthy
response, its `status_code`. -/
def classifyGeneral (e : PyExn) : ApiError :=
  match e.response with
  | some statusCode => .gitHubAPIError e.text statusCode
  | none => .gitHubAPIError e.text none

/-- The loop body of `_execute_with_retry`: `attempt` is the current loop
index, `remaining` the number of later iterations still available
(`remaining = max_retries - attempt`, so `remaining > 0` is the Python guard
`attempt < self.max_retries`). -/
def retryLoop {α : Type} (exec : Nat → AttemptResult α) (retryDelay : Nat) :
    Nat → Nat → RetryOutcome α
  | attempt, 0 =>
    match exec attempt with
    | .ok v => { attempts := 1, sleeps := [], result := .ok v }
    | .exn e =>
      if isRateLimit e then
        { attempts := 1, sleeps := [], result := .error .rateLimitError }
      else
        { attempts := 1, sleeps := [], result := .error (classifyGeneral e) }
  | attempt, remaining + 1 =>
    match exec attempt with
    | .ok v => { attempts := 1, sleeps := [], result := .ok v }
    | .exn e =>
      if isRateLimit e then
        let rest := retryLoop exec retryDelay (attempt + 1) remaining
        { attempts := rest.attempts + 1, sleeps := retryDelay :: rest.sleeps,
          result := rest.result }
      else
        { attempts := 1, sleeps := [], result := .error (classifyGeneral e) }

/-- Model of `GitHubProjectsClient._execute_with_retry`, with the transport abstracted
as the attempt-indexed oracle `exec`: run
`for attempt in range(max_retries + 1)` retrying rate-limited failures with a
fixed `retry_delay` sleep between attempts. -/
def executeWithRetry {α : Type} (exec : Nat → AttemptResult α)
    (maxRetries retryDelay : Nat) : RetryOutcome α :=
  retryLoop exec retryDelay 0 maxRetries

/-! ## Ad-hoc query safety gate (`client.py`, `execute_custom_query`) -/

/-- The denylist scanned by `execute_custom_query`, in source order. -/
def dangerous_keywords : List String :=
  ["mutation", "subscription", "__schema", "__type"]

/-- Result of `execute_custom_query`: either the `ValueError` raised by the
keyword scan (before any network activity), or the outcome of handing the
query to `_execute_with_retry`. -/
inductive CustomQueryOutcome (α : Type) where
  | valueError (msg : String)
  | executed (r : RetryOutcome α)

/-- Model of `GitHubProjectsClient.execute_custom_query`: lowercase the query text,
raise `ValueError` on the first denylisted keyword contained in it, otherwise
execute it through the retry layer.  `exec` is the transport behaviour for a
given query document and variables mapping. -/
def execute_custom_query {α : Type}
    (exec : String → List (String × PyVal) → Nat → AttemptResult α)
    (maxRetries retryDelay : Nat)
    (query : String) (variable_values : List (String × PyVal)) :
    CustomQueryOutcome α :=
  let query_lower := pyLower query
  match dangerous_keywords.find? (fun kw => strContains query_lower kw) with
  | some kw => .valueError ("Query contains forbidden keyword: " ++ kw)
  | none =>
    .executed (executeWithRetry (exec query variable_values) maxRetries retryDelay)

/-! ## Page-size clamping

The effective per-function `first` value: the integer it stores into
the GraphQL `variables` after its clamp lines. -/

namespace Client

/-- Clamp lines of `GitHubProjectsClient.get_organization_projects`. -/
def get_organization_projects_first (first : Int) : Int :=
  if first > 100 then 100 else if first < 1 then 1 else first

/-- Clamp lines of `GitHubProjectsClient.get_user_projects`. -/
def get_user_projects_first (first : Int) : Int :=
  if first > 100 then 100 else if first < 1 then 1 else first

/-- Clamp lines of `GitHubProjectsClient.get_project_items`. -/
def get_project_items_first (first : Int) : Int :=
  if first > 100 then 100 else if first < 1 then 1 else first

/-- Clamp lines of `GitHubProjectsClient.get_project_items_advanced`. -/
def get_project_items_advanced_first (first : Int) : Int :=
  if first > 100 then 100 else if first < 1 then 1 else first

end Client

namespace Server

/-- Clamp line of the `list_accessible_projects` tool in `server.py`
(`if first > 25: first = 25`; there is no lower-bound branch). -/
def list_accessible_projects_first (first : Int) : Int :=
  if first > 25 then 25 else first

/-- Effective page size of the `get_project_items` tool in `server.py`: the
dispatcher clamps above 25, then delegates to
`GitHubProjectsClient.get_project_items`, which applies its own clamp. -/
def get_project_items_first (first : Int) : Int :=
  Client.get_project_items_first (if first > 25 then 25 else first)

end Server

/-! ## Advanced item listing (`client.py`, `get_project_items_advanced`) -/

/-- The declared GraphQL type inferred for one extra named parameter:
`"String" if isinstance(var_value, str) else "Int" if
isinstance(var_value, int) else "Boolean"`. -/
def inferVarType (var_value : PyVal) : String :=
  if isinstance_str var_value then "String"
  else if isinstance_int var_value then "Int"
  else "Boolean"

/-- The text appended to the parameter-declaration list of the composed
operation, one `, $name: Type` segment per extra named parameter. -/
def customVarDecls (custom_variables : List (String × PyVal)) : String :=
  custom_variables.foldl
    (fun acc p => acc ++ ", $" ++ p.1 ++ ": " ++ inferVarType p.2) ""

/-- The `try/except` tail of `get_project_items_advanced`.
`advancedResult` is the outcome of `execute_custom_query` on the composed
operation and `defaultResult` the outcome the fallback call
`get_project_items(project_id, first, after)` would produce; both abstract
one remote round trip.  On failure the code falls back exactly when
`custom_fields or custom_filters` is truthy; `custom_variables` does not
enter that condition. -/
def get_project_items_advanced {α : Type}
    (advancedResult : Except PyExn α) (defaultResult : Except PyExn α)
    (custom_fields custom_filters : Option String)
    (_custom_variables : Option (List (String × PyVal))) : Except PyExn α :=
  match advancedResult with
  | .ok r => .ok r
  | .error e =>
    if pyTruthyOptStr custom_fields || pyTruthyOptStr custom_filters then
      defaultResult
    else
      .error e

/-! ## Field-value update (`client.py`, `update_item_field_value`) -/

/-- The `formatted_value` computed by `update_item_field_value`: the payload
placed into the `value` variable of the mutation, shaped from the
runtime type. -/
def format_value (value : PyVal) : PyVal :=
  if isinstance_str value then .vdict [("text", value)]
  else if isinstance_int_or_float value then .vdict [("number", value)]
  else if isinstance_dict value then value
  else .vdict [("text", .vstr (pyStr value))]

/-! ## Configuration and startup (`config.py`, `server.py`) -/

/-- A process environment: an association list of variable names to values. -/
def Env : Type := List (String × String)

/-- Python `os.getenv(key)`. -/
def os_getenv (env : Env) (key : String) : Option String :=
  (List.find? (fun p => p.1 == key) env).map (fun p => p.2)

/-- Model of `Config._get_required_env`: return the stored value, raising
`ValueError` when it is unset or empty (`if not value`). -/
def get_required_env (env : Env) (key : String) : Except String String :=
  match os_getenv env key with
  | none => .error ("Required environment variable " ++ key ++ " is not set")
  | some v =>
    if v.isEmpty then .error ("Required environment variable " ++ key ++ " is not set")
    else .ok v

/-- The `config.github_token` property: lazily resolve `GITHUB_TOKEN`. -/
def config_github_token (env : Env) : Except String String :=
  get_required_env env "GITHUB_TOKEN"

/-- The state a `GitHubProjectsClient` is constructed with
(only the parts the modelled claims read). -/
structure GitHubProjectsClient where
  token : String

/-- Model of `server.get_github_client`: construct (or reuse) the client, which
requires the access token from the environment; a missing or empty
`GITHUB_TOKEN` raises the configuration `ValueError` here and only here. -/
def get_github_client (env : Env) : Except String GitHubProjectsClient :=
  match config_github_token env with
  | .error msg => .error msg
  | .ok t => .ok { token := t }

/-- Model of `server.main`: register the tools and run the transport.  No code path
in `main` (or in module import) reads `GITHUB_TOKEN`: the `config` object is
lazy and the client is created only inside `get_github_client`, which is
called from the tool handlers.  Startup therefore succeeds for every
environment. -/
def server_main_startup (_env : Env) : Except String Unit :=
  .ok ()

/-- An invocation of any exposed tool: every handler first calls
`get_github_client()` and only then performs its operation, so a
configuration error surfaces before any work is done. -/
def tool_invocation {α : Type} (env : Env)
    (op : GitHubProjectsClient → Except String α) : Except String α :=
  match get_github_client env with
  | .error msg => .error msg
  | .ok client => op client

/-! ## Milestone filtering (`server.py`) -/

/-- The Python runtime errors reachable in the modelled filtering code. -/
inductive PyCrash where
  | attributeError
  | typeError
  deriving Repr, DecidableEq

/-- Python `d.get(key, default)`: on a dict, the stored value when the key is
present (even when that value is `None`), the default otherwise; on any
non-dict receiver (such as `None`) the attribute access `.get` raises
`AttributeError`. -/
def dget (d : PyVal) (key : String) (default : PyVal) : Except PyCrash PyVal :=
  match d with
  | .vdict entries =>
    match List.find? (fun p => p.1 == key) entries with
    | some p => .ok p.2
    | none => .ok default
  | _ => .error .attributeError

/-- Model of `server._check_content_milestone`:
`item.get("content", \x7b\x7d).get("milestone", \x7b\x7d).get("title") == milestone_name`. -/
def check_content_milestone (item : PyVal) (milestone_name : String) :
    Except PyCrash Bool := do
  let content ← dget item "content" (.vdict [])
  let milestone ← dget content "milestone" (.vdict [])
  let title ← dget milestone "title" .vnone
  pure (pyEqStr title milestone_name)

/-- The `for field_value in item["fieldValues"]["nodes"]` loop of
`server._check_field_milestone`: a node matches when it has a `milestone` key
whose value is truthy and has a `title` equal to the target. -/
def fieldMilestoneLoop (milestone_name : String) :
    List PyVal → Except PyCrash Bool
  | [] => pure false
  | field_value :: rest =>
    match field_value with
    | .vdict entries =>
      match List.find? (fun p => p.1 == "milestone") entries with
      | some p => do
        let milestone_info := p.2
        if pyTruthy milestone_info then do
          let title ← dget milestone_info "title" .vnone
          if pyEqStr title milestone_name then pure true
          else fieldMilestoneLoop milestone_name rest
        else fieldMilestoneLoop milestone_name rest
      | none => fieldMilestoneLoop milestone_name rest
    | _ => .error .typeError

/-- Model of `server._check_field_milestone`: guard on a truthy
`item.get("fieldValues", \x7b\x7d).get("nodes")`, then scan the nodes. -/
def check_field_milestone (item : PyVal) (milestone_name : String) :
    Except PyCrash Bool := do
  let fieldValues ← dget item "fieldValues" (.vdict [])
  let nodes ← dget fieldValues "nodes" .vnone
  if pyTruthy nodes then
    match nodes with
    | .vlist ns => fieldMilestoneLoop milestone_name ns
    | _ => .error .typeError
  else
    pure false

/-- Model of `server._filter_items_by_milestone`: keep the items whose content
milestone matches, or (otherwise) whose milestone-typed field value matches;
any runtime error from a check aborts the whole call. -/
def filter_items_by_milestone (items : List PyVal) (milestone_name : String) :
    Except PyCrash (List PyVal) :=
  match items with
  | [] => pure []
  | item :: rest => do
    let content_match ← check_content_milestone item milestone_name
    let field_match ←
      if content_match then pure false
      else check_field_milestone item milestone_name
    let tail ← filter_items_by_milestone rest milestone_name
    pure (if content_match || field_match then item :: tail else tail)

/-! ## Fixed-page filtering requests (`server.py`) -/

/-- The constant GraphQL documents built by `_build_search_query`,
`_build_field_value_query` and `_build_milestone_query`; each builder takes
no parameters, so the document texts are modelled as opaque tags. -/
inductive QueryDoc where
  | searchProjectItems
  | getItemsByFieldValue
  | getItemsByMilestone
  deriving Repr, DecidableEq

/-- The single outbound request a filtering tool hands to
`_execute_with_retry`: the document and the `variables` mapping
`id`, `first` and `after`. -/
structure OutboundRequest where
  doc : QueryDoc
  id : String
  first : Int
  after : Option String
  deriving Repr, DecidableEq

/-- The request issued by the `search_project_items` tool:
`variables = \x7b"id": project_id, "first": 25, "after": None\x7d`. -/
def search_project_items_request (project_id : String) (_query : String)
    (_filters : Option String) : OutboundRequest :=
  { doc := .searchProjectItems, id := project_id, first := 25, after := none }

/-- The request issued by the `get_items_by_field_value` tool:
`variables = \x7b"id": project_id, "first": 25, "after": None\x7d`. -/
def get_items_by_field_value_request (project_id : String) (_field_id : String)
    (_value : String) : OutboundRequest :=
  { doc := .getItemsByFieldValue, id := project_id, first := 25, after := none }

/-- The request issued by the `get_items_by_milestone` tool:
`variables = \x7b"id": project_id, "first": 25, "after": None\x7d`. -/
def get_items_by_milestone_request (project_id : String)
    (_milestone_name : String) : OutboundRequest :=
  { doc := .getItemsByMilestone, id := project_id, first := 25, after := none }

/-! ## Theorems -/

/-- C1 (counterexample): the dispatcher tool `list_accessible_projects` has
no lower bound on the page size.  At the request `first = 0` (which is below
1) the effective page size is `0`, not `1` as the claim states. -/
theorem page_size_floor_counterexample :
    Server.list_accessible_projects_first 0 = 0 ∧ (0 : Int) < 1 ∧
    Server.list_accessible_projects_first 0 ≠ 1 := by
  refine ⟨rfl, by decide, ?_⟩
  intro h
  simp [Server.list_accessible_projects_first] at h

/-- C1 (amended): every listed operation clamps requests above its ceiling
(100 for the client operations, 25 for the dispatcher operations) to exactly
the ceiling; the four client operations and the dispatcher `get_project_items`
clamp requests below 1 to exactly 1, but the dispatcher
`list_accessible_projects` applies no floor and passes a request below 1
through unchanged. -/
theorem page_size_clamp_amended : ∀ first : Int,
    (first > 100 → Client.get_organization_projects_first first = 100) ∧
    (first < 1 → Client.get_organization_projects_first first = 1) ∧
    (first > 100 → Client.get_user_projects_first first = 100) ∧
    (first < 1 → Client.get_user_projects_first first = 1) ∧
    (first > 100 → Client.get_project_items_first first = 100) ∧
    (first < 1 → Client.get_project_items_first first = 1) ∧
    (first > 100 → Client.get_project_items_advanced_first first = 100) ∧
    (first < 1 → Client.get_project_items_advanced_first first = 1) ∧
    (first > 25 → Server.list_accessible_projects_first first = 25) ∧
    (first < 1 → Server.list_accessible_projects_first first = first) ∧
    (first > 25 → Server.get_project_items_first first = 25) ∧
    (first < 1 → Server.get_project_items_first first = 1) := by
  intro first
  unfold Server.get_project_items_first Server.list_accessible_projects_first
    Client.get_organization_projects_first Client.get_user_projects_first
    Client.get_project_items_first Client.get_project_items_advanced_first
  refine ⟨?_, ?_, ?_, ?_, ?_, ?_, ?_, ?_, ?_, ?_, ?_, ?_⟩ <;>
    (intro h; split_ifs <;> omega)

/-- C1 (witness): the amended clamp behaviour at concrete inputs, including
the missing floor of `list_accessible_projects` at `first = -3`. -/
theorem page_size_clamp_amended_witness :
    Client.get_organization_projects_first 101 = 100 ∧
    Client.get_project_items_first 0 = 1 ∧
    Server.list_accessible_projects_first 26 = 25 ∧
    Server.list_accessible_projects_first (-3) = -3 ∧
    Server.get_project_items_first 0 = 1 :=
  ⟨(page_size_clamp_amended 101).1 (by decide),
   (page_size_clamp_amended 0).2.2.2.2.2.1 (by decide),
   (page_size_clamp_amended 26).2.2.2.2.2.2.2.2.1 (by decide),
   (page_size_clamp_amended (-3)).2.2.2.2.2.2.2.2.2.1 (by decide),
   (page_size_clamp_amended 0).2.2.2.2.2.2.2.2.2.2.2 (by decide)⟩

/-- C6 (evaluation at the failing input): a boolean extra named parameter is
declared with GraphQL type `Int`, not `Boolean`, because a Python `bool` is
an instance of `int` and the `isinstance(var_value, int)` arm fires first. -/
theorem custom_variable_bool_declared_int :
    inferVarType (.vbool true) = "Int" ∧
    customVarDecls [("flag", .vbool true)] = ", $flag: Int" ∧
    inferVarType (.vbool true) ≠ "Boolean" := by
  refine ⟨rfl, rfl, by decide⟩

/-- C7: `update_item_field_value` shapes its outgoing payload from the input
runtime type of the input value: a string becomes a `text` payload, a numeric value
(ints, floats, and booleans, which are numeric in Python) becomes a `number`
payload, a mapping passes through unchanged, and anything else is stringified
into a `text` payload. -/
theorem update_item_field_value_shapes :
    (∀ s, format_value (.vstr s) = .vdict [("text", .vstr s)]) ∧
    (∀ n, format_value (.vint n) = .vdict [("number", .vint n)]) ∧
    (∀ r, format_value (.vfloat r) = .vdict [("number", .vfloat r)]) ∧
    (∀ b, format_value (.vbool b) = .vdict [("number", .vbool b)]) ∧
    (∀ entries, format_value (.vdict entries) = .vdict entries) ∧
    (format_value .vnone = .vdict [("text", .vstr "None")]) ∧
    (∀ elems, format_value (.vlist elems) =
      .vdict [("text", .vstr (pyStr (.vlist elems)))]) :=
  ⟨fun _ => rfl, fun _ => rfl, fun _ => rfl, fun _ => rfl, fun _ => rfl, rfl,
   fun _ => rfl⟩

/-- C9 (evaluation at the failing input): an item whose content carries
`milestone: None` (every issue without a milestone in a GraphQL response)
makes `_filter_items_by_milestone` raise `AttributeError` instead of
excluding the item, because `.get("milestone", ...)` returns the stored
`None` and `None.get("title")` fails; on a page without such items the
filter does return exactly the matching items. -/
theorem milestone_filter_crash_on_null_milestone :
    filter_items_by_milestone
      [.vdict [("id", .vstr "I1"),
        ("content", .vdict [("id", .vstr "C1"), ("title", .vstr "Fix login"),
          ("milestone", .vnone)]),
        ("fieldValues", .vdict [("nodes", .vlist [])])]]
      "MVP" = .error .attributeError ∧
    filter_items_by_milestone
      [.vdict [("id", .vstr "I2"),
        ("content", .vdict [("id", .vstr "C2"), ("title", .vstr "Ship checkout"),
          ("milestone", .vdict [("title", .vstr "MVP")])]),
        ("fieldValues", .vdict [("nodes", .vlist [])])],
       .vdict [("id", .vstr "I3"),
        ("content", .vdict [("id", .vstr "C3"), ("title", .vstr "Draft note")]),
        ("fieldValues", .vdict [("nodes", .vlist [])])]]
      "MVP" =
      .ok [.vdict [("id", .vstr "I2"),
        ("content", .vdict [("id", .vstr "C2"), ("title", .vstr "Ship checkout"),
          ("milestone", .vdict [("title", .vstr "MVP")])]),
        ("fieldValues", .vdict [("nodes", .vlist [])])]] :=
  ⟨rfl, rfl⟩

/-- C10: each of the three client-side filtering tools issues its single
outbound request with page size exactly 25 and a null continuation cursor,
for every argument a caller can supply — the request does not depend on any
page-size or cursor input, since the tools accept none. -/
theorem filtering_tools_fixed_page :
    ∀ (project_id query field_id value milestone_name : String)
      (filters : Option String),
    search_project_items_request project_id query filters =
      { doc := .searchProjectItems, id := project_id, first := 25, after := none } ∧
    get_items_by_field_value_request project_id field_id value =
      { doc := .getItemsByFieldValue, id := project_id, first := 25, after := none } ∧
    get_items_by_milestone_request project_id milestone_name =
      { doc := .getItemsByMilestone, id := project_id, first := 25, after := none } :=
  fun _ _ _ _ _ _ => ⟨rfl, rfl, rfl⟩

/-- C3: when every transport attempt fails with a rate-limited error,
`_execute_with_retry` makes exactly `max_retries + 1` attempts, sleeps
exactly `max_retries` times for `retry_delay` seconds each, and raises the
distinct rate-limit classified error, for every `max_retries ≥ 0`. -/
theorem retry_exhaustion_rate_limit {α : Type} (exec : Nat → AttemptResult α)
    (maxRetries retryDelay : Nat)
    (h : ∀ n, ∃ e, exec n = .exn e ∧ isRateLimit e = true) :
    executeWithRetry exec maxRetries retryDelay =
      { attempts := maxRetries + 1,
        sleeps := List.replicate maxRetries retryDelay,
        result := .error .rateLimitError } := by
  have key : ∀ remaining attempt,
      retryLoop exec retryDelay attempt remaining =
        { attempts := remaining + 1,
          sleeps := List.replicate remaining retryDelay,
          result := .error .rateLimitError } := by
    intro remaining
    induction remaining with
    | zero =>
      intro attempt
      obtain ⟨e, he, hrl⟩ := h attempt
      simp [retryLoop, he, hrl]
    | succ k ih =>
      intro attempt
      obtain ⟨e, he, hrl⟩ := h attempt
      simp [retryLoop, he, hrl, ih (attempt + 1), List.replicate_succ]
  exact key maxRetries 0

/-- C3 (witness): with a transport that reports a rate limit on all of the
`2 + 1` attempts, the call sleeps twice for 60 seconds and raises
`RateLimitError`. -/
theorem retry_exhaustion_rate_limit_witness :
    executeWithRetry (α := Unit)
      (fun _ => .exn ⟨"API rate limit exceeded for user", none⟩) 2 60 =
      { attempts := 3, sleeps := [60, 60], result := .error .rateLimitError } :=
  retry_exhaustion_rate_limit _ 2 60
    (fun _ => ⟨⟨"API rate limit exceeded for user", none⟩, rfl, by decide⟩)

/-- C4: when the first transport attempt fails with an error whose text does
not contain "rate limit", `_execute_with_retry` makes exactly one attempt,
performs no sleep, and raises `GitHubAPIError` carrying the remote error
text and, when the exception exposes a response, its HTTP status code. -/
theorem non_rate_limit_fails_fast {α : Type} (exec : Nat → AttemptResult α)
    (maxRetries retryDelay : Nat) (e : PyExn)
    (h0 : exec 0 = .exn e) (hrl : isRateLimit e = false) :
    executeWithRetry exec maxRetries retryDelay =
      { attempts := 1, sleeps := [],
        result := .error (.gitHubAPIError e.text (Option.join e.response)) } := by
  have hcg : classifyGeneral e = .gitHubAPIError e.text (Option.join e.response) := by
    cases hr : e.response <;> simp [classifyGeneral, hr, Option.join]
  cases maxRetries with
  | zero => simp [executeWithRetry, retryLoop, h0, hrl, hcg]
  | succ k => simp [executeWithRetry, retryLoop, h0, hrl, hcg]

/-- C4 (witness): a not-found failure carrying a response with status 404 is
raised immediately as `GitHubAPIError` with that status, after one attempt
and no sleep. -/
theorem non_rate_limit_fails_fast_witness :
    executeWithRetry (α := Unit)
      (fun _ => .exn ⟨"Could not resolve to a node", some (some 404)⟩) 3 60 =
      { attempts := 1, sleeps := [],
        result := .error (.gitHubAPIError "Could not resolve to a node" (some 404)) } :=
  non_rate_limit_fails_fast _ 3 60 ⟨"Could not resolve to a node", some (some 404)⟩
    rfl (by decide)

/-- C2: if the query text contains, case-insensitively, any denylisted
keyword, `execute_custom_query` raises the `ValueError` naming a forbidden
keyword, and the outcome is the same for every transport oracle — zero
network calls are made; otherwise the query is handed to the retry layer and
executed. -/
theorem execute_custom_query_safety (query : String) :
    ((∃ kw ∈ dangerous_keywords, strContains (pyLower query) kw = true) →
      ∃ kw ∈ dangerous_keywords, strContains (pyLower query) kw = true ∧
        ∀ (α : Type) (exec : String → List (String × PyVal) → Nat → AttemptResult α)
          (maxRetries retryDelay : Nat) (variable_values : List (String × PyVal)),
          execute_custom_query exec maxRetries retryDelay query variable_values =
            .valueError ("Query contains forbidden keyword: " ++ kw)) ∧
    ((∀ kw ∈ dangerous_keywords, strContains (pyLower query) kw = false) →
      ∀ (α : Type) (exec : String → List (String × PyVal) → Nat → AttemptResult α)
        (maxRetries retryDelay : Nat) (variable_values : List (String × PyVal)),
        execute_custom_query exec maxRetries retryDelay query variable_values =
          .executed (executeWithRetry (exec query variable_values)
            maxRetries retryDelay)) := by
  constructor
  · intro h
    cases hfind : dangerous_keywords.find? (fun kw => strContains (pyLower query) kw) with
    | none =>
      exfalso
      obtain ⟨kw, hmem, hc⟩ := h
      have hnone := List.find?_eq_none.mp hfind kw hmem
      simp [hc] at hnone
    | some kw =>
      refine ⟨kw, List.mem_of_find?_eq_some hfind, List.find?_some hfind, ?_⟩
      intro α exec maxRetries retryDelay variable_values
      simp [execute_custom_query, hfind]
  · intro h α exec maxRetries retryDelay variable_values
    have hfind : dangerous_keywords.find? (fun kw => strContains (pyLower query) kw) = none :=
      List.find?_eq_none.mpr (fun kw hmem => by simp [h kw hmem])
    simp [execute_custom_query, hfind]

/-- C2 (witness): a mutation document is blocked with the `ValueError`
naming "mutation" regardless of the transport, and a clean read query is
handed to the retry layer. -/
theorem execute_custom_query_safety_witness :
    execute_custom_query (α := Unit) (fun _ _ _ => .ok ()) 3 60
      "mutation DeleteProject" [] =
      .valueError "Query contains forbidden keyword: mutation" ∧
    execute_custom_query (α := Unit) (fun _ _ _ => .ok ()) 3 60
      "query GetViewer" [] =
      .executed (executeWithRetry (fun _ => .ok ()) 3 60) := by
  constructor
  · obtain ⟨kw, hmem, hc, heq⟩ :=
      (execute_custom_query_safety "mutation DeleteProject").1
        ⟨"mutation", by decide, by decide⟩
    have hkw : kw = "mutation" := by
      fin_cases hmem <;> first | rfl | (exfalso; revert hc; decide)
    rw [hkw] at heq
    exact heq Unit _ 3 60 []
  · exact (execute_custom_query_safety "query GetViewer").2 (by decide) Unit _ 3 60 []

/-- C5 (counterexample): with only extra named parameters supplied (a
customization under the claim), a failing composed operation does not fall
back to the default listing — the error propagates, unlike what the claim
states. -/
theorem advanced_fallback_counterexample :
    get_project_items_advanced (α := Unit)
      (Except.error ⟨"Something went wrong", none⟩) (Except.ok ())
      none none (some [("states", PyVal.vstr "OPEN")]) =
      Except.error ⟨"Something went wrong", none⟩ ∧
    pyTruthyOptDict (some [("states", PyVal.vstr "OPEN")]) = true ∧
    (Except.error ⟨"Something went wrong", none⟩ : Except PyExn Unit) ≠
      Except.ok () := by
  refine ⟨rfl, rfl, ?_⟩
  intro h
  exact Except.noConfusion h

/-- C5 (amended): on success the composed result is returned; on failure the
operation falls back to the default listing exactly when a truthy
field-selection fragment or filter fragment was supplied, and otherwise —
including when only extra named parameters were supplied — the failure
propagates unchanged. -/
theorem advanced_fallback_amended {α : Type}
    (advancedResult defaultResult : Except PyExn α)
    (custom_fields custom_filters : Option String)
    (custom_variables : Option (List (String × PyVal))) :
    (∀ r, advancedResult = .ok r →
      get_project_items_advanced advancedResult defaultResult
        custom_fields custom_filters custom_variables = .ok r) ∧
    (∀ e, advancedResult = .error e →
      (pyTruthyOptStr custom_fields || pyTruthyOptStr custom_filters) = true →
      get_project_items_advanced advancedResult defaultResult
        custom_fields custom_filters custom_variables = defaultResult) ∧
    (∀ e, advancedResult = .error e →
      (pyTruthyOptStr custom_fields || pyTruthyOptStr custom_filters) = false →
      get_project_items_advanced advancedResult defaultResult
        custom_fields custom_filters custom_variables = .error e) := by
  refine ⟨?_, ?_, ?_⟩
  · intro r hr
    subst hr
    rfl
  · intro e he ht
    subst he
    simp [get_project_items_advanced, ht]
  · intro e he ht
    subst he
    simp [get_project_items_advanced, ht]

/-- C5 (witness): with a custom field fragment the failing composed call
falls back to the default result; with only custom variables it propagates
the error. -/
theorem advanced_fallback_amended_witness :
    get_project_items_advanced (α := Unit)
      (Except.error ⟨"boom", none⟩) (Except.ok ()) (some "id title") none none =
      Except.ok () ∧
    get_project_items_advanced (α := Unit)
      (Except.error ⟨"boom", none⟩) (Except.ok ()) none none
      (some [("x", PyVal.vint 1)]) =
      Except.error ⟨"boom", none⟩ :=
  ⟨(advanced_fallback_amended _ _ _ _ _).2.1 ⟨"boom", none⟩ rfl (by decide),
   (advanced_fallback_amended _ _ _ _ _).2.2 ⟨"boom", none⟩ rfl (by decide)⟩

/-- C8 (counterexample): with an empty environment (no `GITHUB_TOKEN`),
startup succeeds — the process does start, contrary to the claim; the
configuration error is raised only when the client is first requested. -/
theorem startup_without_token_counterexample :
    server_main_startup [] = Except.ok () ∧
    get_github_client [] =
      Except.error "Required environment variable GITHUB_TOKEN is not set" :=
  ⟨rfl, rfl⟩

/-- C8 (amended): when `GITHUB_TOKEN` is unset or empty the process still
starts (token loading is lazy), and every tool invocation fails with the
configuration error before performing any operation, so no operation is ever
served without the credential. -/
theorem token_required_before_any_operation (env : Env)
    (h : os_getenv env "GITHUB_TOKEN" = none ∨
      os_getenv env "GITHUB_TOKEN" = some "") :
    server_main_startup env = Except.ok () ∧
    ∀ (α : Type) (op : GitHubProjectsClient → Except String α),
      tool_invocation env op =
        Except.error "Required environment variable GITHUB_TOKEN is not set" := by
  refine ⟨rfl, ?_⟩
  intro α op
  rcases h with h | h <;>
    simp [tool_invocation, get_github_client, config_github_token,
      get_required_env, h, String.isEmpty]

/-- C8 (witness): in an environment that configures only the transport, the
server starts and a tool invocation fails with the configuration error. -/
theorem token_required_before_any_operation_witness :
    server_main_startup [("MCP_TRANSPORT", "stdio")] = Except.ok () ∧
    tool_invocation (α := Unit) [("MCP_TRANSPORT", "stdio")]
      (fun _ => Except.ok ()) =
      Except.error "Required environment variable GITHUB_TOKEN is not set" :=
  ⟨(token_required_before_any_operation [("MCP_TRANSPORT", "stdio")] (Or.inl rfl)).1,
   (token_required_before_any_operation [("MCP_TRANSPORT", "stdio")] (Or.inl rfl)).2
     Unit (fun _ => Except.ok ())⟩

end GithubProjectsMcp
